import Mathlib

/-!
Verification development for the naver-weather scraping service
(`server.py` and `src/main.py`: two near-duplicate variants of the same
program). The Python functions relevant to the frozen claims are embedded
shallowly below: pure string processing becomes functions on `List Char` /
`String`, the retrying HTTP fetch becomes a function from an abstract
transport (attempt number to HTTP status and body) to an event trace plus a
result, and the orchestrator `get_weather_by_region` becomes explicit state
passing over an association-list cache. BeautifulSoup's HTML parser is a
third-party collaborator: it is abstracted as an arbitrary function from the
fetched body to a node tree, and the CSS selectors used by the program are
embedded as a small selector AST interpreted over that tree.
-/

namespace NaverWeather

/-! ## Python string primitives -/

/-- The whitespace characters stripped by Python's `str.strip()` (the ASCII
ones; the program only ever strips user-typed region names). Also used to
model the regex class in `"습도\\s*([0-9]\x7b1,3\x7d)\\s*%?"`. -/
def isSpaceC (c : Char) : Bool :=
  c = ' ' || c = '\t' || c = '\n' || c = '\r' || c = '\x0b' || c = '\x0c'

/-- Left part of `str.strip()`. -/
def lstripL (l : List Char) : List Char := l.dropWhile isSpaceC

/-- Right part of `str.strip()`. -/
def rstripL (l : List Char) : List Char := (l.reverse.dropWhile isSpaceC).reverse

/-- Both-ends strip on character lists. -/
def stripL (l : List Char) : List Char := rstripL (lstripL l)

/-- Python `str.strip()`: `region.strip()` in `get_weather_by_region`. -/
def pstrip (s : String) : String := String.mk (stripL s.data)

/-- Python slicing `s[:n]` on `str` (used as `resp.text[:200]` and
`str(e)[:120]`). -/
def strTake (n : ℕ) (s : String) : String := String.mk (s.data.take n)

/-- Python `str.lower()` (ASCII case folding suffices for the
`format.lower() == "json"` comparison in the source). -/
def lowerStr (s : String) : String := String.mk (s.data.map Char.toLower)

/-! ### Idempotence of stripping (needed to relate a query on `region` with
a query on the already-stripped region) -/

theorem dropWhile_head_false (p : α → Bool) (l : List α) :
    l.dropWhile p = [] ∨ ∃ a t, l.dropWhile p = a :: t ∧ p a = false := by
  induction l with
  | nil => exact Or.inl rfl
  | cons x xs ih =>
    by_cases h : p x
    · simpa [List.dropWhile_cons, h] using ih
    · exact Or.inr ⟨x, xs, by simp [List.dropWhile_cons, h], by simpa using h⟩

theorem dropWhile_idem (p : α → Bool) (l : List α) :
    (l.dropWhile p).dropWhile p = l.dropWhile p := by
  rcases dropWhile_head_false p l with h | ⟨a, t, h, ha⟩
  · rw [h]; rfl
  · rw [h, List.dropWhile_cons_of_neg]; simp [ha]

theorem rstripL_append (l : List Char) : ∃ junk, rstripL l ++ junk = l := by
  refine ⟨(l.reverse.takeWhile isSpaceC).reverse, ?_⟩
  have h := congrArg List.reverse (List.takeWhile_append_dropWhile isSpaceC l.reverse)
  rw [List.reverse_append, List.reverse_reverse] at h
  exact h

theorem rstripL_idem (l : List Char) : rstripL (rstripL l) = rstripL l := by
  unfold rstripL
  rw [List.reverse_reverse, dropWhile_idem]

theorem lstripL_rstripL_lstripL (l : List Char) :
    lstripL (rstripL (lstripL l)) = rstripL (lstripL l) := by
  rcases dropWhile_head_false isSpaceC l with h | ⟨a, t, h, ha⟩
  · show (rstripL (l.dropWhile isSpaceC)).dropWhile isSpaceC = rstripL (l.dropWhile isSpaceC)
    rw [h]; rfl
  · show (rstripL (l.dropWhile isSpaceC)).dropWhile isSpaceC = rstripL (l.dropWhile isSpaceC)
    rw [h]
    rcases rstripL_append (a :: t) with ⟨junk, hj⟩
    cases hr : rstripL (a :: t) with
    | nil => rfl
    | cons b s =>
      have hb : b = a := by
        rw [hr] at hj
        simpa using congrArg List.head? hj
      rw [List.dropWhile_cons_of_neg]
      rw [hb]; simp [ha]

theorem stripL_idem (l : List Char) : stripL (stripL l) = stripL l := by
  unfold stripL
  rw [lstripL_rstripL_lstripL, rstripL_idem]

theorem pstrip_idem (s : String) : pstrip (pstrip s) = pstrip s := by
  show String.mk (stripL (String.mk (stripL s.data)).data) = String.mk (stripL s.data)
  rw [show (String.mk (stripL s.data)).data = stripL s.data from rfl, stripL_idem]

/-! ## HTML node trees and the CSS selectors used by the program

`BeautifulSoup(html, "html.parser")` is third-party; the embedding works on
its output: a forest of element/text nodes. The selector strings in
`SELECTORS` use only three CSS features — a class test, a tag test, the
child combinator `>` and the descendant combinator (space) — so they are
embedded as a small AST, one constructor per combinator. -/

inductive Node where
  | text (s : String)
  | elem (tag : String) (classes : List String) (children : List Node)

/-- One compound selector step: optional tag name test and optional
`.class` test (e.g. `span.temperature_text`, `strong`, `.weather_main`). -/
structure SimpleSel where
  tag : Option String
  cls : Option String

inductive Sel where
  | simple (s : SimpleSel)
  | child (anc : Sel) (s : SimpleSel)
  | desc (anc : Sel) (s : SimpleSel)

def matchesSimple (s : SimpleSel) : Node → Bool
  | .text _ => false
  | .elem t cs _ =>
    (match s.tag with | none => true | some tg => tg = t) &&
    (match s.cls with | none => true | some c => cs.contains c)

/-- Whether `n`, whose ancestor chain (nearest first) is `anc`, matches the
selector. `child` requires the immediate parent to match the left part;
`desc` requires some ancestor to match it. -/
def matchesSel : Sel → List Node → Node → Bool
  | .simple s, _, n => matchesSimple s n
  | .child a s, anc, n =>
    matchesSimple s n &&
      (match anc with
       | [] => false
       | p :: rest => matchesSel a rest p)
  | .desc a s, anc, n =>
    matchesSimple s n &&
      (anc.tails.any fun t =>
        match t with
        | [] => false
        | p :: rest => matchesSel a rest p)

mutual

/-- First matching element in document order inside `n` (including `n`
itself), `anc` being the ancestors of `n`, nearest first. -/
def selectNode (sel : Sel) (anc : List Node) : Node → Option Node
  | .text _ => none
  | n@(.elem _ _ children) =>
    if matchesSel sel anc n then some n
    else selectList sel (n :: anc) children

def selectList (sel : Sel) (anc : List Node) : List Node → Option Node
  | [] => none
  | n :: rest =>
    match selectNode sel anc n with
    | some r => some r
    | none => selectList sel anc rest

end

/-- `soup.select_one(sel)`: first match in document order over the parsed
forest. -/
def selectOne (soup : List Node) (sel : Sel) : Option Node := selectList sel [] soup

mutual

/-- The text-node strings below a node, in document order
(BeautifulSoup's `strings` traversal). -/
def textFragments : Node → List String
  | .text s => [s]
  | .elem _ _ children => textFragmentsList children

def textFragmentsList : List Node → List String
  | [] => []
  | n :: rest => textFragments n ++ textFragmentsList rest

end

/-- With `strip=True` BeautifulSoup strips each fragment and drops the ones
that become empty. -/
def strippedFragments (n : Node) : List String :=
  ((textFragments n).map pstrip).filter (fun s => s != "")

/-- `el.get_text(strip=True)` (empty separator). -/
def getTextStrip (n : Node) : String := String.join (strippedFragments n)

/-- `block.get_text(" ", strip=True)` (space separator). -/
def getTextSep (n : Node) : String := String.intercalate " " (strippedFragments n)

/-! ### The `SELECTORS` table (identical in both source variants) -/

/-- `".temperature_text > strong"`. -/
def tempPrimary : List Sel :=
  [Sel.child (Sel.simple ⟨none, some "temperature_text"⟩) ⟨some "strong", none⟩]

/-- `".weather_main"`. -/
def statusPrimary : List Sel := [Sel.simple ⟨none, some "weather_main"⟩]

/-- `".temperature_info .sensible em"`. -/
def sensibleTempSels : List Sel :=
  [Sel.desc (Sel.desc (Sel.simple ⟨none, some "temperature_info"⟩) ⟨none, some "sensible"⟩)
    ⟨some "em", none⟩]

/-- `["span.temperature_text strong", ".temperature_text"]`. -/
def tempFallback : List Sel :=
  [Sel.desc (Sel.simple ⟨some "span", some "temperature_text"⟩) ⟨some "strong", none⟩,
   Sel.simple ⟨none, some "temperature_text"⟩]

/-- `[".status .weather", ".status", ".weather"]`. -/
def statusFallback : List Sel :=
  [Sel.desc (Sel.simple ⟨none, some "status"⟩) ⟨none, some "weather"⟩,
   Sel.simple ⟨none, some "status"⟩,
   Sel.simple ⟨none, some "weather"⟩]

/-- `[".summary_list", ".weather_info", ".temperature_info"]`. -/
def humidityGuessBlocks : List Sel :=
  [Sel.simple ⟨none, some "summary_list"⟩,
   Sel.simple ⟨none, some "weather_info"⟩,
   Sel.simple ⟨none, some "temperature_info"⟩]

/-! ## `_first_text`, `_guess_humidity`, `_normalize_temp` -/

/-- `_first_text(soup, selectors)`: first selector whose selected element
has non-empty stripped text; an element with empty text falls through to
the next selector. -/
def firstText (soup : List Node) : List Sel → Option String
  | [] => none
  | sel :: rest =>
    match selectOne soup sel with
    | some el =>
      let txt := getTextStrip el
      if txt != "" then some txt else firstText soup rest
    | none => firstText soup rest

/-- The regex match attempt of `"습도\\s*([0-9]\x7b1,3\x7d)\\s*%?"` anchored
at the current position: literal 습도, optional whitespace, then one to
three digits (greedy); the captured group is the digit run. -/
def humAt : List Char → Option (List Char)
  | '습' :: '도' :: rest =>
    let ds := ((rest.dropWhile isSpaceC).takeWhile Char.isDigit).take 3
    if ds.isEmpty then none else some ds
  | _ => none

/-- `re.search` for that pattern: leftmost position where the match
succeeds; positions where only the literal matches but no digit follows do
not stop the scan. -/
def humSearch : List Char → Option (List Char)
  | [] => none
  | c :: rest =>
    match humAt (c :: rest) with
    | some ds => some ds
    | none => humSearch rest

/-- The loop body of `_guess_humidity` over the remaining block selectors:
a missing block falls through, and — since the loop has no early exit on a
failed regex — an existing block whose text yields no match also falls
through to the next selector. -/
def guessHumidityGo (soup : List Node) : List Sel → Option String
  | [] => none
  | sel :: rest =>
    match selectOne soup sel with
    | none => guessHumidityGo soup rest
    | some block =>
      match humSearch (getTextSep block).data with
      | some ds => some (String.mk ds ++ "%")
      | none => guessHumidityGo soup rest

/-- `_guess_humidity(soup)` (identical in both source variants). -/
def guessHumidity (soup : List Node) : Option String :=
  guessHumidityGo soup humidityGuessBlocks

/-- The character class kept by the leading-junk strip in `src/main.py`:
`re.sub(r"^[^\d\-\+]*", "", txt)` deletes the longest prefix of characters
that are not digits, `-` or `+` (`\d` modelled as the ASCII digits the
temperatures actually use). -/
def isTempLead (c : Char) : Bool := c.isDigit || c = '-' || c = '+'

/-- `_normalize_temp` from `src/main.py`: strip leading non-digit non-sign
characters, delete every `도`, space and `°`, drop one leading `+`, then
suffix `°C` when non-empty, else return the raw input. -/
def normalizeTempMain (txt : String) : String :=
  let clean := txt.data.dropWhile (fun c => !(isTempLead c))
  let t := ((clean.filter (fun c => c != '도')).filter (fun c => c != ' ')).filter
    (fun c => c != '°')
  let t2 := match t with
    | '+' :: rest => rest
    | other => other
  if t2.isEmpty then txt else String.mk t2 ++ "°C"

/-- `_normalize_temp` from `server.py`: same, but without the leading-junk
strip. -/
def normalizeTempServer (txt : String) : String :=
  let t := ((txt.data.filter (fun c => c != '도')).filter (fun c => c != ' ')).filter
    (fun c => c != '°')
  let t2 := match t with
    | '+' :: rest => rest
    | other => other
  if t2.isEmpty then txt else String.mk t2 ++ "°C"

/-! ## The weather record and `_parse_weather` -/

/-- The dict built by `_parse_weather` (Python `None` is `Option.none`;
`source` and `region` are always strings). -/
structure Rec where
  region : String
  status : Option String
  temperature : Option String
  sensible_temperature : Option String
  humidity : Option String
  source : String
  timestamp : ℕ
deriving DecidableEq

/-- Python truthiness of an optional string: `None` and `""` are falsy. -/
def pyTruthy : Option String → Bool
  | none => false
  | some s => s != ""

/-- Python `x or y` on optional strings. -/
def pyOr (a b : Option String) : Option String := if pyTruthy a then a else b

/-- `SEARCH_URL.format(query=q)` with
`SEARCH_URL = "https://search.naver.com/search.naver?query=\x7bquery\x7d"`. -/
def searchUrlFor (query : String) : String :=
  "https://search.naver.com/search.naver?query=" ++ query

/-- The url built from a region key: `SEARCH_URL.format(query=f"\x7bkey\x7d+날씨")`.
The region is interpolated as-is; the source applies no URL encoding. -/
def buildUrl (key : String) : String := searchUrlFor (key ++ "+날씨")

/-- `_parse_weather(html, region)` on the already-parsed node forest;
`now` stands for `int(time.time())`. -/
def parseWeather (soup : List Node) (region : String) (now : ℕ) : Rec :=
  let temp := pyOr (firstText soup tempPrimary) (firstText soup tempFallback)
  let status := pyOr (firstText soup statusPrimary) (firstText soup statusFallback)
  let sensible := firstText soup sensibleTempSels
  let humidity := guessHumidity soup
  let temp2 := if pyTruthy temp then temp.map normalizeTempMain else temp
  { region := region
    status := status
    temperature := temp2
    sensible_temperature := sensible
    humidity := humidity
    source := buildUrl region
    timestamp := now }

/-! ## `_format_text` -/

def degradedNoticeLine : String :=
  "- 안내: 일부 정보 수집에 실패했습니다. 잠시 후 다시 시도해 주세요."

def sourceLine (d : Rec) : String := "- 참고: " ++ d.source

def headerLine (d : Rec) : String := "[네이버 날씨] " ++ d.region

/-- One `if data.get(k): lines.append(label + value)` step. -/
def optFieldLine (label : String) (v : Option String) : List String :=
  match v with
  | some s => if s != "" then [label ++ s] else []
  | none => []

/-- The field lines appended after the header, in source order. -/
def bodyLines (d : Rec) : List String :=
  optFieldLine "- 상태: " d.status ++
  optFieldLine "- 기온: " d.temperature ++
  optFieldLine "- 체감온도: " d.sensible_temperature ++
  optFieldLine "- 습도: " d.humidity ++
  (if d.source != "" then [sourceLine d] else [])

/-- `_format_text(data)`: header, field lines, and — when at most two lines
were produced in total — the degraded notice plus a repeated source line. -/
def formatText (d : Rec) : String :=
  let lines := headerLine d :: bodyLines d
  let lines2 :=
    if lines.length ≤ 2 then
      lines ++ [degradedNoticeLine] ++ (if d.source != "" then [sourceLine d] else [])
    else lines
  String.intercalate "\n" lines2

/-! ## `json.dumps(data, ensure_ascii=False, indent=2)` -/

def hexDigitLower (n : ℕ) : Char :=
  if n < 10 then Char.ofNat (48 + n) else Char.ofNat (87 + n)

/-- JSON string escaping (non-ASCII kept literal since `ensure_ascii=False`). -/
def jsonEscape (s : String) : String :=
  String.join (s.data.map fun c =>
    if c = '"' then "\\\""
    else if c = '\\' then "\\\\"
    else if c = '\n' then "\\n"
    else if c = '\t' then "\\t"
    else if c = '\r' then "\\r"
    else if c.toNat < 32 then
      "\\u00" ++ String.mk [hexDigitLower (c.toNat / 16), hexDigitLower (c.toNat % 16)]
    else String.mk [c])

def jsonStr (s : String) : String := "\"" ++ jsonEscape s ++ "\""

def jsonOptStr : Option String → String
  | none => "null"
  | some s => jsonStr s

/-- The pretty-printed JSON rendering of the record dict, keys in the
insertion order of `_parse_weather`. -/
def jsonDumps (d : Rec) : String :=
  "\x7b\n" ++
  "  \"region\": " ++ jsonStr d.region ++ ",\n" ++
  "  \"status\": " ++ jsonOptStr d.status ++ ",\n" ++
  "  \"temperature\": " ++ jsonOptStr d.temperature ++ ",\n" ++
  "  \"sensible_temperature\": " ++ jsonOptStr d.sensible_temperature ++ ",\n" ++
  "  \"humidity\": " ++ jsonOptStr d.humidity ++ ",\n" ++
  "  \"source\": " ++ jsonStr d.source ++ ",\n" ++
  "  \"timestamp\": " ++ toString d.timestamp ++ "\n" ++
  "\x7d"

/-! ## `_fetch_html`: rate-limited retry loop with exponential backoff

The HTTP transport is abstracted as a function from the attempt number
(1-based) to the response status and body; a side-effect trace records, in
order, each rate-limiter acquisition, each issued GET, and each backoff
sleep (in seconds, as exact rationals). -/

def MAX_RETRIES : ℕ := 3

def BACKOFF_BASE : ℚ := 4 / 5

/-- `BACKOFF_BASE * (2 ** (attempt - 1))`. -/
def backoffSleep (attempt : ℕ) : ℚ := BACKOFF_BASE * 2 ^ (attempt - 1)

inductive FetchEvent where
  | acquire
  | httpGet (status : ℕ)
  | sleep (seconds : ℚ)
deriving DecidableEq

/-- `resp.status_code >= 500 or resp.status_code == 429`. -/
def isRetryStatus (st : ℕ) : Bool := 500 ≤ st || st = 429

/-- Statuses on which the attempt raises: the explicit 5xx/429 check plus
`resp.raise_for_status()`, which raises on any 4xx/5xx. -/
def isErrorStatus (st : ℕ) : Bool := isRetryStatus st || (400 ≤ st && st < 600)

/-- The stringified exception of a failed attempt. The 5xx/429 branch
raises `HTTPError(f"HTTP \x7bresp.status_code\x7d: \x7bresp.text[:200]\x7d")`; the
`raise_for_status` message for other 4xx is abstracted (its exact wording
embeds the reason phrase and url, which no claim depends on). -/
def attemptErrText (st : ℕ) (body : String) : String :=
  if isRetryStatus st then "HTTP " ++ toString st ++ ": " ++ strTake 200 body
  else toString st ++ " Client Error for url"

/-- The retry loop of `_fetch_html`, with `fuel` remaining attempts and
`attempt` the 1-based index of the next one; `lastErr` is the `err`
variable. Each attempt acquires the rate limiter, issues the GET, and on
failure sleeps the backoff (the sleep also happens after the final failed
attempt, matching the source); after the last attempt it raises
`RuntimeError(f"Failed to fetch after retries: \x7berr\x7d")`. -/
def fetchGo (t : ℕ → ℕ × String) : ℕ → ℕ → Option String → List FetchEvent × Except String String
  | 0, _, lastErr =>
    ([], Except.error ("Failed to fetch after retries: " ++
      (match lastErr with | some e => e | none => "None")))
  | fuel + 1, attempt, _ =>
    if isErrorStatus (t attempt).1 then
      let e := attemptErrText (t attempt).1 (t attempt).2
      let rest := fetchGo t fuel (attempt + 1) (some e)
      (FetchEvent.acquire :: FetchEvent.httpGet (t attempt).1 ::
        FetchEvent.sleep (backoffSleep attempt) :: rest.1, rest.2)
    else
      ([FetchEvent.acquire, FetchEvent.httpGet (t attempt).1], Except.ok (t attempt).2)

/-- `_fetch_html(url)`: up to `MAX_RETRIES` attempts starting at attempt 1. -/
def fetchHtml (t : ℕ → ℕ × String) : List FetchEvent × Except String String :=
  fetchGo t MAX_RETRIES 1 none

def countAcquires (evs : List FetchEvent) : ℕ :=
  evs.countP fun e => match e with | FetchEvent.acquire => true | _ => false

def countGets (evs : List FetchEvent) : ℕ :=
  evs.countP fun e => match e with | FetchEvent.httpGet _ => true | _ => false

/-! ## The cache and the orchestrator `get_weather_by_region`

The `cachetools.TTLCache` is third-party; on the paths the claims are about
it behaves as a key-value map (`in`, `[k]`, `[k] = v`), modelled as an
association list whose `put` overwrites the key. -/

abbrev CacheT := List (String × Rec)

def cacheFind (c : CacheT) (k : String) : Option Rec :=
  (c.find? fun kv => kv.1 == k).map Prod.snd

def cachePut (c : CacheT) (k : String) (r : Rec) : CacheT :=
  (k, r) :: c.filter fun kv => kv.1 != k

/-- What one call of `get_weather_by_region` did: the returned string, the
cache afterwards, the url fetched (if any fetch was started), and the
rate-limiter/HTTP/sleep trace of that fetch. -/
structure QueryOut where
  output : String
  cacheAfter : CacheT
  fetchedUrl : Option String
  events : List FetchEvent
deriving DecidableEq

def emptyRegionMsg : String := "지역명이 비어 있습니다. 예: region=\u0027서울\u0027"

/-- `f"[오류] ... (reason: \x7bstr(e)[:120]\x7d)"`. -/
def fetchFailMsg (e : String) : String :=
  "[오류] 날씨 정보를 가져오는 중 문제가 발생했습니다. 잠시 후 다시 시도해 주세요. (reason: " ++
  strTake 120 e ++ ")"

/-- The final rendering step: json when `format.lower() == "json"`, else
text. -/
def renderOut (d : Rec) (format : String) : String :=
  if lowerStr format = "json" then jsonDumps d else formatText d

/-- `get_weather_by_region(region, format)`. `soupOf` abstracts
`BeautifulSoup(html, "html.parser")`, `t` the HTTP transport, `now` the
clock read. -/
def getWeatherByRegion (soupOf : String → List Node) (t : ℕ → ℕ × String) (now : ℕ)
    (region format : String) (cache : CacheT) : QueryOut :=
  let key := pstrip region
  if key = "" then ⟨emptyRegionMsg, cache, none, []⟩
  else
    match cacheFind cache key with
    | some data => ⟨renderOut data format, cache, none, []⟩
    | none =>
      let url := buildUrl key
      let fr := fetchHtml t
      match fr.2 with
      | Except.error e => ⟨fetchFailMsg e, cache, some url, fr.1⟩
      | Except.ok html =>
        let data := parseWeather (soupOf html) key now
        ⟨renderOut data format, cachePut cache key data, some url, fr.1⟩

/-! ## Definitions written from the spec's words, for comparison with the
source embedding -/

/-- UTF-8 encoding of one character, as byte values. -/
def utf8Bytes (c : Char) : List ℕ :=
  let n := c.toNat
  if n < 128 then [n]
  else if n < 2048 then [192 + n / 64, 128 + n % 64]
  else if n < 65536 then [224 + n / 4096, 128 + (n / 64) % 64, 128 + n % 64]
  else [240 + n / 262144, 128 + (n / 4096) % 64, 128 + (n / 64) % 64, 128 + n % 64]

def hexDigitUpper (n : ℕ) : Char :=
  if n < 10 then Char.ofNat (48 + n) else Char.ofNat (55 + n)

/-- RFC 3986 unreserved bytes: ALPHA, DIGIT, `-`, `.`, `_`, `~`. -/
def isUnreservedByte (b : ℕ) : Bool :=
  (65 ≤ b && b ≤ 90) || (97 ≤ b && b ≤ 122) || (48 ≤ b && b ≤ 57) ||
  b = 45 || b = 46 || b = 95 || b = 126

/-- Written from the spec words "the URL-encoded region": standard
percent-encoding of the UTF-8 bytes, unreserved bytes kept literal (what
`urllib.parse.quote` produces). The source itself never URL-encodes. -/
def specUrlEncode (s : String) : String :=
  String.mk ((s.data.flatMap utf8Bytes).flatMap fun b =>
    if isUnreservedByte b then [Char.ofNat b]
    else ['%', hexDigitUpper (b / 16), hexDigitUpper (b % 16)])

/-- Written from the spec words for `NormalizeTemperature` (§4.4): strip
any leading non-digit, non-sign characters; remove the degree word, space
characters and the degree glyph; strip a leading `+` (keep `-`); suffix
`°C` when the remainder is non-empty, else return the raw text unchanged. -/
def specNormalizeTemperature (raw : String) : String :=
  let noLead := raw.data.dropWhile fun c => !(c.isDigit || c = '+' || c = '-')
  let cleaned := noLead.filter fun c => !(c = '도' || c = ' ' || c = '°')
  let unsigned := match cleaned with
    | '+' :: rest => rest
    | other => other
  if unsigned.isEmpty then raw else String.mk unsigned ++ "°C"

/-! ## C1: humidity block scan -/

def c1Block : Node := Node.elem "div" ["summary_list"] [Node.text "바람 약함"]

/-- A document whose first humidity guess block (`.summary_list`) exists
but contains no humidity pattern, while the second (`.weather_info`) does. -/
def c1Soup : List Node :=
  [c1Block, Node.elem "div" ["weather_info"] [Node.text "습도 60%"]]

/-- C1 counterexample: in `c1Soup` the first block selector
`.summary_list` selects an existing element whose concatenated text does
not match the humidity regex, so the claim predicts that `_guess_humidity`
returns no humidity; the code instead continues to `.weather_info` and
returns `"60%"`. -/
theorem c1_counterexample :
    selectOne c1Soup (Sel.simple ⟨none, some "summary_list"⟩) = some c1Block ∧
    humSearch (getTextSep c1Block).data = none ∧
    guessHumidity c1Soup = some "60%" :=
  ⟨rfl, rfl, rfl⟩

theorem guessHumidityGo_eq_firstMatch (soup : List Node) (sels : List Sel) :
    guessHumidityGo soup sels =
      (sels.filterMap fun sel =>
        (selectOne soup sel).bind fun b =>
          (humSearch (getTextSep b).data).map fun ds => String.mk ds ++ "%").head? := by
  induction sels with
  | nil => rfl
  | cons sel rest ih =>
    rw [List.filterMap_cons]
    cases h : selectOne soup sel with
    | none => simpa [guessHumidityGo, h] using ih
    | some b =>
      cases hm : humSearch (getTextSep b).data with
      | none => simpa [guessHumidityGo, h, hm] using ih
      | some ds => simp [guessHumidityGo, h, hm]

/-- C1 (amended): `_guess_humidity` walks the block selectors in order and
returns the digits suffixed with `%` from the first existing block whose
concatenated text matches the humidity regex; a missing block, and equally
an existing block in which the regex fails, is skipped in favour of the
later block selectors, and no humidity is returned only when no existing
block matches. -/
theorem c1_amended (soup : List Node) :
    guessHumidity soup =
      (humidityGuessBlocks.filterMap fun sel =>
        (selectOne soup sel).bind fun b =>
          (humSearch (getTextSep b).data).map fun ds => String.mk ds ++ "%").head? :=
  guessHumidityGo_eq_firstMatch soup humidityGuessBlocks

/-! ## C2: `_normalize_temp` of `src/main.py` against the spec wording -/

theorem filter_merge_degree (l : List Char) :
    ((l.filter fun c => c != '도').filter fun c => c != ' ').filter (fun c => c != '°') =
      l.filter fun c => !(c = '도' || c = ' ' || c = '°') := by
  induction l with
  | nil => rfl
  | cons x xs ih =>
    by_cases h1 : x = '도' <;> by_cases h2 : x = ' ' <;> by_cases h3 : x = '°' <;>
      simp_all [List.filter_cons]

theorem tempLead_pred_eq :
    (fun c => !(isTempLead c)) = fun c => !(c.isDigit || c = '+' || c = '-') := by
  funext c
  simp [isTempLead]
  by_cases h1 : c.isDigit <;> by_cases h2 : c = '+' <;> by_cases h3 : c = '-' <;> simp_all

/-- C2: `_normalize_temp` of `src/main.py` agrees with the spec's
description (strip leading non-digit non-sign characters, remove the
degree word, spaces and the degree glyph, strip one leading `+`, suffix
`°C` when non-empty, else return the raw string), and in particular maps
`"23°"` to `"23°C"` and `"현재온22.7°"` to `"22.7°C"`. -/
theorem c2_normalize_matches_spec :
    (∀ raw, normalizeTempMain raw = specNormalizeTemperature raw) ∧
    normalizeTempMain "23°" = "23°C" ∧
    normalizeTempMain "현재온22.7°" = "22.7°C" := by
  refine ⟨fun raw => ?_, by decide, by decide⟩
  simp only [normalizeTempMain, specNormalizeTemperature]
  rw [filter_merge_degree, tempLead_pred_eq]

/-! ## C3: the outbound query url -/

/-- C3 counterexample: for region `"서울"` the url the code builds
interpolates the region raw; it differs from the url built from the
percent-encoded region that the claim specifies. -/
theorem c3_counterexample :
    buildUrl (pstrip "서울") ≠
      "https://search.naver.com/search.naver?query=" ++
        specUrlEncode (pstrip "서울") ++ "+날씨" := by
  decide

/-- C3 (amended): on a cache miss with a non-empty trimmed region, the url
the fetch is started with is the fixed search address followed by the
trimmed region interpolated raw (no percent-encoding) followed by `+날씨`,
and every parsed record's `source` field is built by the same formula. -/
theorem c3_amended (soupOf : String → List Node) (t : ℕ → ℕ × String) (now : ℕ)
    (region format : String) (cache : CacheT)
    (hkey : pstrip region ≠ "") (hmiss : cacheFind cache (pstrip region) = none) :
    (getWeatherByRegion soupOf t now region format cache).fetchedUrl =
      some ("https://search.naver.com/search.naver?query=" ++ (pstrip region ++ "+날씨")) ∧
    ∀ (soup : List Node) (r : String) (n : ℕ),
      (parseWeather soup r n).source =
        "https://search.naver.com/search.naver?query=" ++ (r ++ "+날씨") := by
  constructor
  · simp only [getWeatherByRegion, hmiss, if_neg hkey]
    cases h2 : (fetchHtml t).2 with
    | error e => simp [h2, buildUrl, searchUrlFor]
    | ok html => simp [h2, buildUrl, searchUrlFor]
  · intro soup r n
    rfl

/-- Witness for C3 (amended) at region `"서울"`, an always-failing
transport and the empty cache. -/
theorem c3_amended_witness :
    pstrip "서울" ≠ "" ∧
    cacheFind [] (pstrip "서울") = none ∧
    (getWeatherByRegion (fun _ => []) (fun _ => (503, "")) 0 "서울" "text" []).fetchedUrl =
      some ("https://search.naver.com/search.naver?query=" ++ (pstrip "서울" ++ "+날씨")) :=
  ⟨by decide, rfl,
    (c3_amended (fun _ => []) (fun _ => (503, "")) 0 "서울" "text" [] (by decide) rfl).1⟩

/-! ## C4: the two `_normalize_temp` variants -/

/-- C4 counterexample: the two variants disagree on `"현재온22.7°"` — the
`server.py` variant keeps the leading label (it has no leading-junk
strip), the `src/main.py` variant removes it. -/
theorem c4_counterexample :
    normalizeTempServer "현재온22.7°" = "현재온22.7°C" ∧
    normalizeTempMain "현재온22.7°" = "22.7°C" ∧
    normalizeTempServer "현재온22.7°" ≠ normalizeTempMain "현재온22.7°" :=
  ⟨by decide, by decide, by decide⟩

/-- C4 (amended): the two `_normalize_temp` variants are not extensionally
equal; they agree exactly on the inputs on which the leading-junk strip of
the `src/main.py` variant is a no-op (in particular on every input that is
empty or starts with a digit or a sign). -/
theorem c4_amended (txt : String)
    (h : txt.data.dropWhile (fun c => !(isTempLead c)) = txt.data) :
    normalizeTempServer txt = normalizeTempMain txt := by
  unfold normalizeTempServer normalizeTempMain
  rw [h]

/-- Witness for C4 (amended) at `"23°"`. -/
theorem c4_amended_witness :
    "23°".data.dropWhile (fun c => !(isTempLead c)) = "23°".data ∧
    normalizeTempServer "23°" = normalizeTempMain "23°" :=
  ⟨by decide, c4_amended "23°" (by decide)⟩

/-! ## C5: retry, backoff and early return in `_fetch_html` -/

theorem isErrorStatus_false_of_2xx {st : ℕ} (h2 : 200 ≤ st) (h3 : st < 300) :
    isErrorStatus st = false := by
  simp only [isErrorStatus, isRetryStatus, Bool.or_eq_false_iff, Bool.and_eq_false_iff]
  refine ⟨⟨?_, ?_⟩, ?_⟩ <;> simp <;> omega

/-- C5: when every attempt fails (for example, every response is an HTTP
503), `_fetch_html` performs exactly 3 attempts, each one acquiring the
rate limiter before its GET, sleeps 0.8 s, 1.6 s and 3.2 s after the
respective failed attempts, and then fails with an error wrapping the last
attempt's error; and for any transport, a 2xx response on an attempt `k`
reached after failing earlier attempts returns that response's body with
exactly `k` attempts and `k` rate-limiter acquisitions (no further
attempts). -/
theorem c5_fetch_retry (t : ℕ → ℕ × String)
    (hfail : ∀ a, isErrorStatus (t a).1 = true) :
    fetchHtml t =
      ([FetchEvent.acquire, FetchEvent.httpGet (t 1).1, FetchEvent.sleep (4 / 5),
        FetchEvent.acquire, FetchEvent.httpGet (t 2).1, FetchEvent.sleep (8 / 5),
        FetchEvent.acquire, FetchEvent.httpGet (t 3).1, FetchEvent.sleep (16 / 5)],
        Except.error ("Failed to fetch after retries: " ++ attemptErrText (t 3).1 (t 3).2)) ∧
    ∀ (t2 : ℕ → ℕ × String) (k : ℕ), 1 ≤ k → k ≤ MAX_RETRIES →
      (∀ a, 1 ≤ a → a < k → isErrorStatus (t2 a).1 = true) →
      200 ≤ (t2 k).1 → (t2 k).1 < 300 →
      (fetchHtml t2).2 = Except.ok (t2 k).2 ∧
      countGets (fetchHtml t2).1 = k ∧ countAcquires (fetchHtml t2).1 = k := by
  constructor
  · simp only [fetchHtml, MAX_RETRIES, fetchGo, hfail 1, hfail 2, hfail 3, if_true,
      backoffSleep, BACKOFF_BASE]
    norm_num
  · intro t2 k hk1 hk3 hbefore h200 h300
    have hok := isErrorStatus_false_of_2xx h200 h300
    have hk3' : k ≤ 3 := hk3
    interval_cases k
    · simp [fetchHtml, MAX_RETRIES, fetchGo, hok, countGets, countAcquires]
    · simp [fetchHtml, MAX_RETRIES, fetchGo, hok, hbefore 1 (by omega) (by omega),
        countGets, countAcquires]
    · simp [fetchHtml, MAX_RETRIES, fetchGo, hok, hbefore 1 (by omega) (by omega),
        hbefore 2 (by omega) (by omega), countGets, countAcquires]

/-- Witness for C5 at the constant-503 transport. -/
theorem c5_fetch_retry_witness :
    fetchHtml (fun _ => (503, "busy")) =
      ([FetchEvent.acquire, FetchEvent.httpGet 503, FetchEvent.sleep (4 / 5),
        FetchEvent.acquire, FetchEvent.httpGet 503, FetchEvent.sleep (8 / 5),
        FetchEvent.acquire, FetchEvent.httpGet 503, FetchEvent.sleep (16 / 5)],
        Except.error ("Failed to fetch after retries: " ++ attemptErrText 503 "busy")) :=
  (c5_fetch_retry (fun _ => (503, "busy")) (fun _ => rfl)).1

/-! ## C6: a failed fetch never touches the cache -/

/-- C6: on a cache miss whose fetch fails, `get_weather_by_region` returns
the sanitized error string (detail truncated to 120 characters) and the
cache after the call is exactly the cache before it. -/
theorem c6_fetch_error_cache_unchanged (soupOf : String → List Node)
    (t : ℕ → ℕ × String) (now : ℕ) (region format : String) (cache : CacheT)
    (e : String)
    (hkey : pstrip region ≠ "") (hmiss : cacheFind cache (pstrip region) = none)
    (hfail : (fetchHtml t).2 = Except.error e) :
    (getWeatherByRegion soupOf t now region format cache).cacheAfter = cache ∧
    (getWeatherByRegion soupOf t now region format cache).output = fetchFailMsg e := by
  constructor <;> simp [getWeatherByRegion, hmiss, hkey, hfail]

/-- Witness for C6: empty cache, region `"서울"`, a transport that always
answers 503. -/
theorem c6_witness :
    pstrip "서울" ≠ "" ∧
    cacheFind [] (pstrip "서울") = none ∧
    (fetchHtml (fun _ => (503, "busy"))).2 =
      Except.error "Failed to fetch after retries: HTTP 503: busy" ∧
    (getWeatherByRegion (fun _ => []) (fun _ => (503, "busy")) 0 "서울" "text" []).cacheAfter
      = [] ∧
    (getWeatherByRegion (fun _ => []) (fun _ => (503, "busy")) 0 "서울" "text" []).output =
      fetchFailMsg "Failed to fetch after retries: HTTP 503: busy" := by
  have hfail : (fetchHtml (fun _ => (503, "busy"))).2 =
      Except.error "Failed to fetch after retries: HTTP 503: busy" := rfl
  have h := c6_fetch_error_cache_unchanged (fun _ => []) (fun _ => (503, "busy")) 0 "서울"
    "text" [] "Failed to fetch after retries: HTTP 503: busy" (by decide) rfl hfail
  exact ⟨by decide, rfl, hfail, h.1, h.2⟩

/-! ## C7: empty region short-circuits -/

/-- C7: when the trimmed region is empty, `get_weather_by_region` returns
the literal validation message, the cache is unchanged, no fetch is
started, and the rate-limiter/HTTP/sleep trace is empty. -/
theorem c7_empty_region (soupOf : String → List Node) (t : ℕ → ℕ × String) (now : ℕ)
    (region format : String) (cache : CacheT) (h : pstrip region = "") :
    getWeatherByRegion soupOf t now region format cache =
      ⟨emptyRegionMsg, cache, none, []⟩ := by
  simp [getWeatherByRegion, h]

/-- Witness for C7 at the whitespace-only region `"   "`. -/
theorem c7_empty_region_witness :
    pstrip "   " = "" ∧
    getWeatherByRegion (fun _ => []) (fun _ => (200, "")) 0 "   " "text" [] =
      ⟨emptyRegionMsg, [], none, []⟩ :=
  ⟨rfl, c7_empty_region (fun _ => []) (fun _ => (200, "")) 0 "   " "text" [] rfl⟩

/-! ## C8: `_parse_weather` totality and record invariants -/

theorem append_ne_empty_left (a b : String) (ha : a.data ≠ []) : a ++ b ≠ "" := by
  intro h
  have h2 : a.data ++ b.data = [] := by
    have h3 := congrArg String.data h
    rwa [String.data_append] at h3
  exact ha (List.append_eq_nil.mp h2).1

theorem buildUrl_ne_empty (s : String) : buildUrl s ≠ "" :=
  append_ne_empty_left "https://search.naver.com/search.naver?query=" (s ++ "+날씨")
    (by decide)

/-- C8: `_parse_weather` is a total function of the parsed document (its
Lean embedding returns a record for every node forest, never an error; a
missing field is an absent optional value), and the returned record's
`region` equals the given non-empty region and its `source` url is
non-empty. -/
theorem c8_parse_record_invariants (soup : List Node) (region : String) (now : ℕ)
    (h : region ≠ "") :
    (parseWeather soup region now).region = region ∧
    (parseWeather soup region now).region ≠ "" ∧
    (parseWeather soup region now).source ≠ "" :=
  ⟨rfl, h, buildUrl_ne_empty region⟩

/-- Witness for C8 on the empty document with region `"서울"`. -/
theorem c8_witness :
    ("서울" : String) ≠ "" ∧
    (parseWeather [] "서울" 0).region = "서울" ∧
    (parseWeather [] "서울" 0).region ≠ "" ∧
    (parseWeather [] "서울" 0).source ≠ "" := by
  have h := c8_parse_record_invariants [] "서울" 0 (by decide)
  exact ⟨by decide, h.1, h.2.1, h.2.2⟩

/-! ## C9: the degraded-result notice of `_format_text` -/

/-- C9: whenever fewer than two field lines beyond the header are
produced, `_format_text` renders the header, those field lines, then the
fixed degraded-result notice, then — when the record has a source url — a
repeated source line. -/
theorem c9_degraded_notice (d : Rec) (h : (bodyLines d).length ≤ 1) :
    formatText d = String.intercalate "\n"
      (headerLine d :: (bodyLines d ++ [degradedNoticeLine] ++
        (if d.source != "" then [sourceLine d] else []))) := by
  have hlen : (headerLine d :: bodyLines d).length ≤ 2 := by
    simp only [List.length_cons]
    omega
  simp only [formatText, if_pos hlen, List.cons_append, List.append_assoc]

/-- Witness for C9: a record with only `region` and `source` populated. -/
theorem c9_witness :
    (bodyLines ⟨"서울", none, none, none, none, "http://x", 0⟩).length ≤ 1 ∧
    formatText ⟨"서울", none, none, none, none, "http://x", 0⟩ =
      String.intercalate "\n"
        (headerLine ⟨"서울", none, none, none, none, "http://x", 0⟩ ::
          (bodyLines ⟨"서울", none, none, none, none, "http://x", 0⟩ ++
            [degradedNoticeLine] ++
            (if (Rec.source ⟨"서울", none, none, none, none, "http://x", 0⟩) != ""
              then [sourceLine ⟨"서울", none, none, none, none, "http://x", 0⟩] else []))) :=
  ⟨by decide, c9_degraded_notice ⟨"서울", none, none, none, none, "http://x", 0⟩ (by decide)⟩

/-! ## C10: only the trimmed region matters -/

/-- C10: for every region whose trimmed form is non-empty — and for every
format, cache, clock, parser and transport — querying with the raw region
gives exactly the result of querying with the trimmed region: the key, the
url and the stored record are all computed from the trimmed form. -/
theorem c10_trim_invariance (soupOf : String → List Node) (t : ℕ → ℕ × String) (now : ℕ)
    (region format : String) (cache : CacheT) (h : pstrip region ≠ "") :
    getWeatherByRegion soupOf t now region format cache =
      getWeatherByRegion soupOf t now (pstrip region) format cache := by
  simp only [getWeatherByRegion, pstrip_idem]

/-- Witness for C10 at region `" 서울 "`. -/
theorem c10_witness :
    pstrip " 서울 " ≠ "" ∧
    getWeatherByRegion (fun _ => []) (fun _ => (503, "")) 0 " 서울 " "text" [] =
      getWeatherByRegion (fun _ => []) (fun _ => (503, "")) 0 (pstrip " 서울 ") "text" [] :=
  ⟨by decide, c10_trim_invariance (fun _ => []) (fun _ => (503, "")) 0 " 서울 " "text" []
    (by decide)⟩

end NaverWeather
